import Mathlib

/-!
Verification of the LED banner core (`led-banner.js`): text rasterization,
LED state-grid recompute, scroll/color controller, constructor defaults and
the public factory, embedded shallowly as Lean functions.

The scroll offset and the speed are real-valued scalars in the source; they
are modelled as rationals.  The canvas pixel buffer produced by the external
text renderer is modelled as a brightness function `Nat → Nat → Nat`
(row, column ↦ red channel value), exactly as `createTextBitmap` consumes it.
-/

namespace LEDBanner

/-- A bitmap: ordered list of rows, each row a list of booleans
(`this.textBitmap` in the source). -/
abbrev Bitmap := List (List Bool)

/-- `this.textBitmap.length`. -/
def bitmapHeight (b : Bitmap) : Nat := b.length

/-- `this.textBitmap[0].length` — the width the source reads off row 0
(0 when the bitmap is empty, as JS `undefined` checks make it). -/
def bitmapWidth (b : Bitmap) : Nat := (b.headD []).length

/-- JS-style indexing `b[y][x]`: out-of-range access yields `undefined`,
which is falsy, hence default `false`. -/
def bitmapGet (b : Bitmap) (y x : Nat) : Bool := (b.getD y []).getD x false

/-- Reading a cell of the LED state grid (`this.ledStates[y][x]`). -/
def gridGet (g : List (List Bool)) (y x : Nat) : Bool := (g.getD y []).getD x false

/-- The on/off decision of `updateLEDs` for one cell, lines 304–315 of
`led-banner.js`: `bitmapX = x + Math.floor(scrollOffset)`; the LED is on iff
`y < textBitmap.length && bitmapX >= 0 && bitmapX < textBitmap[0].length &&
textBitmap[y][bitmapX]`. -/
def ledOn (b : Bitmap) (offset : ℚ) (y x : Nat) : Bool :=
  let bitmapX : Int := (x : Int) + ⌊offset⌋
  decide (y < bitmapHeight b) && decide (0 ≤ bitmapX) &&
    decide (bitmapX < (bitmapWidth b : Int)) && bitmapGet b y bitmapX.toNat

/-- `updateLEDs` (lines 297–335): recompute the whole
`panelHeight × panelWidth` grid of on/off states from the bitmap and the
scroll offset. -/
def updateLEDs (b : Bitmap) (offset : ℚ) (panelWidth panelHeight : Nat) :
    List (List Bool) :=
  (List.range panelHeight).map fun y =>
    (List.range panelWidth).map fun x => ledOn b offset y x

/-- The canvas width `createTextBitmap` sets (line 120):
`text.length * fontSize * 0.8` with `fontSize = 32`, truncated to an integer
by the canvas width setter; exactly `⌊textLen · 128/5⌋`. -/
def canvasWidth (textLen : Nat) : Nat := textLen * 128 / 5

/-- The canvas height (line 121): `fontSize * 2 = 64`. -/
def canvasHeight : Nat := 64

/-- Thresholding loop of `createTextBitmap` (lines 136–144): pixel `(y, x)`
is on iff the red channel of the externally rendered text exceeds 128.
The external canvas render is the brightness function. -/
def thresholdBitmap (brightness : Nat → Nat → Nat) (w h : Nat) : Bitmap :=
  (List.range h).map fun y =>
    (List.range w).map fun x => decide (128 < brightness y x)

/-- Source row selected for output row `y` when downsampling (line 154):
`Math.min(Math.floor(y / scaleFactor), H - 1)` with
`scaleFactor = panelHeight / H`. -/
def srcRow (H panelHeight y : Nat) : Nat :=
  min (Int.toNat ⌊(y : ℚ) / ((panelHeight : ℚ) / (H : ℚ))⌋) (H - 1)

/-- Row-downsampling step of `createTextBitmap` (lines 146–162): only when
the thresholded bitmap is taller than `panelHeight`, build `panelHeight`
rows, each copying row `srcRow` of the source over `textBitmap[0].length`
columns. -/
def downsample (b : Bitmap) (panelHeight : Nat) : Bitmap :=
  if panelHeight < b.length then
    (List.range panelHeight).map fun y =>
      (List.range (bitmapWidth b)).map fun x =>
        bitmapGet b (srcRow b.length panelHeight y) x
  else b

/-- `createTextBitmap` (lines 113–163): threshold the externally rendered
canvas of dimensions `canvasWidth textLen × canvasHeight`, then downsample
to the panel height. -/
def createTextBitmap (brightness : Nat → Nat → Nat) (textLen panelHeight : Nat) :
    Bitmap :=
  downsample (thresholdBitmap brightness (canvasWidth textLen) canvasHeight)
    panelHeight

/-- The fixed color palette (lines 28–32): red, green, blue, as RGB codes. -/
def colorSequence : List Nat := [0xff0000, 0x00ff00, 0x0000ff]

/-- The options record passed to the constructor; `none` is a key that was
not supplied (JS `undefined`). -/
structure Options where
  text : Option String := none
  panelWidth : Option Nat := none
  panelHeight : Option Nat := none
  ledSize : Option ℚ := none
  spacing : Option ℚ := none
  offColor : Option Nat := none
  scrollSpeed : Option ℚ := none

/-- JS `v || d` on a string option: the default replaces `undefined` and the
falsy empty string. -/
def jsOrString (v : Option String) (d : String) : String :=
  match v with
  | none => d
  | some s => if s = "" then d else s

/-- JS `v || d` on a numeric option: the default replaces `undefined` and
the falsy 0. -/
def jsOrNat (v : Option Nat) (d : Nat) : Nat :=
  match v with
  | none => d
  | some n => if n = 0 then d else n

/-- JS `v || d` on a rational-valued option: the default replaces
`undefined` and the falsy 0. -/
def jsOrRat (v : Option ℚ) (d : ℚ) : ℚ :=
  match v with
  | none => d
  | some q => if q = 0 then d else q

/-- The mutable state of a `PremiumLEDDisplay` instance that the core
operations touch (configuration, bitmap, scroll offset, color index). -/
structure BannerState where
  text : String
  panelWidth : Nat
  panelHeight : Nat
  ledSize : ℚ
  spacing : ℚ
  offColor : Nat
  scrollSpeed : ℚ
  textBitmap : Bitmap
  scrollOffset : ℚ
  currentColorIndex : Nat

/-- The constructor state right before `this.animate()` (lines 2–38):
resolve each option against its default with JS `||`, set
`scrollOffset = 0` and `currentColorIndex = 0`, and build the initial
bitmap from the resolved text and panel height. -/
def constructInit (brightness : Nat → Nat → Nat) (opts : Options) : BannerState :=
  let text := jsOrString opts.text "WELCOME TO MY WEBSITE"
  let panelHeight := jsOrNat opts.panelHeight 10
  { text := text
    panelWidth := jsOrNat opts.panelWidth 80
    panelHeight := panelHeight
    ledSize := jsOrRat opts.ledSize (17/20)
    spacing := jsOrRat opts.spacing (6/5)
    offColor := jsOrNat opts.offColor 0x100000
    scrollSpeed := jsOrRat opts.scrollSpeed (2/5)
    textBitmap := createTextBitmap brightness text.length panelHeight
    scrollOffset := 0
    currentColorIndex := 0 }

/-- `setText` (lines 372–376): store the new text, move the offset fully
off-screen to `-panelWidth`, and rebuild the bitmap. -/
def setText (brightness : Nat → Nat → Nat) (s : BannerState) (text : String) :
    BannerState :=
  { s with
    text := text
    scrollOffset := -(s.panelWidth : ℚ)
    textBitmap := createTextBitmap brightness text.length s.panelHeight }

/-- `updateScrollPosition` (lines 337–354): do nothing on an empty bitmap;
otherwise advance the offset by the speed and, when it reaches
`textWidth + panelWidth`, reset it to `-panelWidth` and cycle the color. -/
def updateScrollPosition (s : BannerState) : BannerState :=
  if s.textBitmap.length = 0 then s
  else if (bitmapWidth s.textBitmap : ℚ) + (s.panelWidth : ℚ) ≤
      s.scrollOffset + s.scrollSpeed then
    { s with
      scrollOffset := -(s.panelWidth : ℚ)
      currentColorIndex := (s.currentColorIndex + 1) % colorSequence.length }
  else
    { s with scrollOffset := s.scrollOffset + s.scrollSpeed }

/-- The full constructor (lines 2–43): build the initial state, then run the
synchronous first `this.animate()` call (line 39), which executes one
`updateScrollPosition` tick before the constructor returns.  (The tick's
`updateLEDs` and render calls touch only the LED meshes, not this state.) -/
def construct (brightness : Nat → Nat → Nat) (opts : Options) : BannerState :=
  updateScrollPosition (constructInit brightness opts)

/-- What `initLEDBanner` hands back: the constructed display, if any, and
whether `console.error` ran. -/
structure InitResult where
  display : Option BannerState
  loggedError : Bool

/-- `initLEDBanner` (lines 380–390): look the container up in the DOM
(`getElementById`, modelled as a partial map from ids); construct only when
it exists, otherwise log an error and return null. -/
def initLEDBanner (dom : String → Option Unit) (brightness : Nat → Nat → Nat)
    (containerId : String) (opts : Options) : InitResult :=
  match dom containerId with
  | some _ => { display := some (construct brightness opts), loggedError := false }
  | none => { display := none, loggedError := true }

theorem gridGet_updateLEDs {b : Bitmap} {offset : ℚ} {pw ph y x : Nat}
    (hy : y < ph) (hx : x < pw) :
    gridGet (updateLEDs b offset pw ph) y x = ledOn b offset y x := by
  simp [gridGet, updateLEDs, List.getD_eq_getElem?_getD, List.getElem?_map,
    List.getElem?_range, hy, hx]

/-- **C1.** For every bitmap, offset, `panelWidth ≥ 1`, `panelHeight ≥ 1`,
the recomputed grid has cell `(row, col)` (for `row < panelHeight`,
`col < panelWidth`) on iff `row < bitmap.height`,
`0 ≤ col + ⌊offset⌋ < bitmap.width` and `bitmap[row][col + ⌊offset⌋]` is
true; every other such cell, including all rows at or beyond the bitmap's
height, is off. -/
theorem updateLEDs_cell_iff (b : Bitmap) (offset : ℚ) (pw ph : Nat)
    (hpw : 1 ≤ pw) (hph : 1 ≤ ph) (row col : Nat)
    (hrow : row < ph) (hcol : col < pw) :
    gridGet (updateLEDs b offset pw ph) row col = true ↔
      (row < bitmapHeight b ∧ 0 ≤ (col : Int) + ⌊offset⌋ ∧
        (col : Int) + ⌊offset⌋ < (bitmapWidth b : Int) ∧
        bitmapGet b row ((col : Int) + ⌊offset⌋).toNat = true) := by
  rw [gridGet_updateLEDs hrow hcol]
  simp only [ledOn, Bool.and_eq_true, decide_eq_true_eq]
  tauto

/-- Witness for C1 at bitmap `[[true]]`, offset 0, a 1×1 panel, cell (0,0). -/
theorem updateLEDs_cell_iff_witness :
    gridGet (updateLEDs [[true]] 0 1 1) 0 0 = true ↔
      (0 < bitmapHeight [[true]] ∧ 0 ≤ (0 : Int) + ⌊(0 : ℚ)⌋ ∧
        (0 : Int) + ⌊(0 : ℚ)⌋ < (bitmapWidth [[true]] : Int) ∧
        bitmapGet [[true]] 0 ((0 : Int) + ⌊(0 : ℚ)⌋).toNat = true) :=
  updateLEDs_cell_iff [[true]] 0 1 1 (by decide) (by decide) 0 0
    (by decide) (by decide)

theorem floor_neg_natCast (n : Nat) : ⌊-((n : ℚ))⌋ = -(n : Int) := by
  rw [show -((n : ℚ)) = ((-(n : Int) : Int) : ℚ) by push_cast; ring,
    Int.floor_intCast]

theorem updateLEDs_offscreen (b : Bitmap) (pw ph y x : Nat)
    (hy : y < ph) (hx : x < pw) :
    gridGet (updateLEDs b (-(pw : ℚ)) pw ph) y x = false := by
  rw [gridGet_updateLEDs hy hx]
  have hneg : ¬ (0 ≤ (x : Int) + ⌊-((pw : ℚ))⌋) := by
    rw [floor_neg_natCast]; omega
  simp [ledOn, hneg]

/-- C2: one tick on a non-empty bitmap either advances the offset by the
speed leaving the color index alone, or (exactly when the advanced offset
reaches `bitmapWidth + panelWidth`) resets the offset to `-panelWidth` and
steps the color index by one modulo the palette size; no other transition
exists. -/
theorem updateScrollPosition_dichotomy (s : BannerState)
    (h : s.textBitmap ≠ []) :
    (s.scrollOffset + s.scrollSpeed <
        (bitmapWidth s.textBitmap : ℚ) + (s.panelWidth : ℚ) →
      (updateScrollPosition s).scrollOffset = s.scrollOffset + s.scrollSpeed ∧
      (updateScrollPosition s).currentColorIndex = s.currentColorIndex) ∧
    ((bitmapWidth s.textBitmap : ℚ) + (s.panelWidth : ℚ) ≤
        s.scrollOffset + s.scrollSpeed →
      (updateScrollPosition s).scrollOffset = -(s.panelWidth : ℚ) ∧
      (updateScrollPosition s).currentColorIndex =
        (s.currentColorIndex + 1) % colorSequence.length) := by
  have hlen : ¬ s.textBitmap.length = 0 := by
    simpa [List.length_eq_zero] using h
  unfold updateScrollPosition
  rw [if_neg hlen]
  constructor
  · intro hlt
    rw [if_neg (not_le.mpr hlt)]
    exact ⟨rfl, rfl⟩
  · intro hge
    rw [if_pos hge]
    exact ⟨rfl, rfl⟩

/-- Witness for C2 at the state with bitmap `[[true]]`, panel width 2,
speed 1, offset 0: the no-wrap branch fires. -/
theorem updateScrollPosition_dichotomy_witness :
    (updateScrollPosition ⟨"", 2, 1, 0, 0, 0, 1, [[true]], 0, 0⟩).scrollOffset =
        (⟨"", 2, 1, 0, 0, 0, 1, [[true]], 0, 0⟩ : BannerState).scrollOffset +
          (⟨"", 2, 1, 0, 0, 0, 1, [[true]], 0, 0⟩ : BannerState).scrollSpeed ∧
      (updateScrollPosition ⟨"", 2, 1, 0, 0, 0, 1, [[true]], 0, 0⟩).currentColorIndex =
        (⟨"", 2, 1, 0, 0, 0, 1, [[true]], 0, 0⟩ : BannerState).currentColorIndex :=
  (updateScrollPosition_dichotomy ⟨"", 2, 1, 0, 0, 0, 1, [[true]], 0, 0⟩
    (by decide)).1 (by simp [bitmapWidth])

/-- C4: after `setText`, a recompute at the offset `setText` established
(`-panelWidth`) turns every cell of the grid off. -/
theorem setText_recompute_all_off (br : Nat → Nat → Nat) (s : BannerState)
    (T : String) (hT : T ≠ "") (hpw : 1 ≤ s.panelWidth) :
    ∀ y x, y < (setText br s T).panelHeight → x < (setText br s T).panelWidth →
      gridGet (updateLEDs (setText br s T).textBitmap
        (setText br s T).scrollOffset (setText br s T).panelWidth
        (setText br s T).panelHeight) y x = false := by
  intro y x hy hx
  exact updateLEDs_offscreen (setText br s T).textBitmap s.panelWidth
    s.panelHeight y x hy hx

/-- Witness for C4 at a 1×1 panel, text "A", cell (0,0). -/
theorem setText_recompute_all_off_witness :
    gridGet (updateLEDs
      (setText (fun _ _ => 0) ⟨"", 1, 1, 0, 0, 0, 1, [], 0, 0⟩ "A").textBitmap
      (setText (fun _ _ => 0) ⟨"", 1, 1, 0, 0, 0, 1, [], 0, 0⟩ "A").scrollOffset
      (setText (fun _ _ => 0) ⟨"", 1, 1, 0, 0, 0, 1, [], 0, 0⟩ "A").panelWidth
      (setText (fun _ _ => 0) ⟨"", 1, 1, 0, 0, 0, 1, [], 0, 0⟩ "A").panelHeight)
      0 0 = false :=
  setText_recompute_all_off (fun _ _ => 0) ⟨"", 1, 1, 0, 0, 0, 1, [], 0, 0⟩ "A"
    (by decide) (by decide) 0 0 (by decide) (by decide)

/-- C5: `setText` stores the new text, rebuilds the bitmap from it, resets
the offset to `-panelWidth`, and changes nothing else — in particular the
color index and every other configuration field are preserved. -/
theorem setText_effect (br : Nat → Nat → Nat) (s : BannerState) (t : String) :
    (setText br s t).text = t ∧
    (setText br s t).textBitmap = createTextBitmap br t.length s.panelHeight ∧
    (setText br s t).scrollOffset = -(s.panelWidth : ℚ) ∧
    (setText br s t).currentColorIndex = s.currentColorIndex ∧
    (setText br s t).panelWidth = s.panelWidth ∧
    (setText br s t).panelHeight = s.panelHeight ∧
    (setText br s t).ledSize = s.ledSize ∧
    (setText br s t).spacing = s.spacing ∧
    (setText br s t).offColor = s.offColor ∧
    (setText br s t).scrollSpeed = s.scrollSpeed :=
  ⟨rfl, rfl, rfl, rfl, rfl, rfl, rfl, rfl, rfl, rfl⟩

/-- C6: a tick keeps the offset inside `[-panelWidth, bitmapWidth +
panelWidth)` whenever it starts there and `0 < speed < panelWidth`. -/
theorem updateScrollPosition_range (s : BannerState)
    (h1 : -(s.panelWidth : ℚ) ≤ s.scrollOffset)
    (h2 : s.scrollOffset < (bitmapWidth s.textBitmap : ℚ) + (s.panelWidth : ℚ))
    (h3 : 0 < s.scrollSpeed) (h4 : s.scrollSpeed < (s.panelWidth : ℚ)) :
    -(s.panelWidth : ℚ) ≤ (updateScrollPosition s).scrollOffset ∧
      (updateScrollPosition s).scrollOffset <
        (bitmapWidth s.textBitmap : ℚ) + (s.panelWidth : ℚ) := by
  unfold updateScrollPosition
  split_ifs with he hw
  · exact ⟨h1, h2⟩
  · refine ⟨le_refl _, ?_⟩
    have hW : (0 : ℚ) ≤ (bitmapWidth s.textBitmap : ℚ) := by positivity
    have hp : (0 : ℚ) < (s.panelWidth : ℚ) := lt_trans h3 h4
    dsimp only
    linarith
  · rw [not_le] at hw
    dsimp only
    constructor
    · linarith
    · exact hw

/-- Witness for C6 at the state with bitmap `[[true]]`, panel width 2,
speed 1, offset 0. -/
theorem updateScrollPosition_range_witness :
    -(((⟨"", 2, 1, 0, 0, 0, 1, [[true]], 0, 0⟩ : BannerState).panelWidth : ℚ)) ≤
        (updateScrollPosition ⟨"", 2, 1, 0, 0, 0, 1, [[true]], 0, 0⟩).scrollOffset ∧
      (updateScrollPosition ⟨"", 2, 1, 0, 0, 0, 1, [[true]], 0, 0⟩).scrollOffset <
        (bitmapWidth (⟨"", 2, 1, 0, 0, 0, 1, [[true]], 0, 0⟩ : BannerState).textBitmap : ℚ) +
          ((⟨"", 2, 1, 0, 0, 0, 1, [[true]], 0, 0⟩ : BannerState).panelWidth : ℚ) :=
  updateScrollPosition_range ⟨"", 2, 1, 0, 0, 0, 1, [[true]], 0, 0⟩
    (by simp) (by norm_num [bitmapWidth]) (by simp) (by simp)

theorem srcRow_eq (H ph y : Nat) :
    srcRow H ph y = min (y * H / ph) (H - 1) := by
  unfold srcRow
  rw [div_div_eq_mul_div,
    show (y : ℚ) * (H : ℚ) = ((y * H : Nat) : ℚ) by push_cast; ring,
    Int.floor_toNat, Nat.floor_div_nat, Nat.floor_natCast]

theorem map_range_getD (l : List Bool) :
    (List.range l.length).map (fun x => l.getD x false) = l := by
  apply List.ext_getElem
  · simp
  · intro i h1 h2
    simp only [List.getElem_map, List.getElem_range]
    exact List.getD_eq_getElem l false h2

/-- C7: on a buffer taller than the target height the rasterizer's
downsampling step yields exactly `targetHeight` rows, row `y` being source
row `min (⌊y / (targetHeight / H)⌋) (H - 1)` at full natural width; a buffer
no taller than the target is returned unchanged. -/
theorem downsample_spec (b : Bitmap) (ph : Nat) (hph : 1 ≤ ph)
    (hw : ∀ row ∈ b, row.length = bitmapWidth b) :
    (b.length ≤ ph → downsample b ph = b) ∧
    (ph < b.length →
      (downsample b ph).length = ph ∧
      ∀ y, y < ph → (downsample b ph).getD y [] =
        b.getD (min (y * b.length / ph) (b.length - 1)) []) := by
  constructor
  · intro hle
    unfold downsample
    rw [if_neg (not_lt.mpr hle)]
  · intro hlt
    have hdd : downsample b ph =
        (List.range ph).map fun y =>
          (List.range (bitmapWidth b)).map fun x =>
            bitmapGet b (srcRow b.length ph y) x := by
      unfold downsample
      rw [if_pos hlt]
    constructor
    · rw [hdd]; simp
    · intro y hy
      rw [hdd]
      have hget : ((List.range ph).map fun y =>
          (List.range (bitmapWidth b)).map fun x =>
            bitmapGet b (srcRow b.length ph y) x).getD y [] =
          (List.range (bitmapWidth b)).map fun x =>
            bitmapGet b (srcRow b.length ph y) x := by
        simp [List.getD_eq_getElem?_getD, List.getElem?_map,
          List.getElem?_range, hy]
      rw [hget, srcRow_eq]
      have hjlt : min (y * b.length / ph) (b.length - 1) < b.length := by omega
      have hrow : b.getD (min (y * b.length / ph) (b.length - 1)) [] =
          b[min (y * b.length / ph) (b.length - 1)] :=
        List.getD_eq_getElem b [] hjlt
      have hlen : (b.getD (min (y * b.length / ph) (b.length - 1)) []).length =
          bitmapWidth b := by
        rw [hrow]
        exact hw _ (List.getElem_mem hjlt)
      rw [← hlen]
      exact map_range_getD (b.getD (min (y * b.length / ph) (b.length - 1)) [])

/-- Witness for C7 at the two-row bitmap `[[true], [false]]` downsampled to
one row. -/
theorem downsample_spec_witness :
    (downsample [[true], [false]] 1).length = 1 ∧
      (downsample [[true], [false]] 1).getD 0 [] =
        [[true], [false]].getD
          (min (0 * ([[true], [false]] : Bitmap).length / 1)
            (([[true], [false]] : Bitmap).length - 1)) [] :=
  ⟨((downsample_spec [[true], [false]] 1 (by decide) (by decide)).2
      (by decide)).1,
   ((downsample_spec [[true], [false]] 1 (by decide) (by decide)).2
      (by decide)).2 0 (by decide)⟩

theorem bitmapWidth_thresholdBitmap_zero (br : Nat → Nat → Nat) (h : Nat) :
    bitmapWidth (thresholdBitmap br 0 h) = 0 := by
  unfold thresholdBitmap bitmapWidth
  cases h with
  | zero => rfl
  | succ n => rw [List.range_succ_eq_map]; rfl

theorem bitmapWidth_downsample_zero {b : Bitmap} (hb : bitmapWidth b = 0)
    (ph : Nat) : bitmapWidth (downsample b ph) = 0 := by
  unfold downsample
  split_ifs with h
  · rw [hb]
    cases ph with
    | zero => rfl
    | succ n => simp [bitmapWidth, List.range_succ_eq_map]
  · exact hb

/-- C3 (code-bug evaluation): for empty text the rasterizer sets the canvas
width to `0 · 32 · 0.8 = 0` and builds a bitmap of width 0 — the code has
no minimum-width-1 substitution, contradicting the claim. -/
theorem createTextBitmap_empty_width (br : Nat → Nat → Nat) (ph : Nat) :
    bitmapWidth (createTextBitmap br 0 ph) = 0 := by
  unfold createTextBitmap
  exact bitmapWidth_downsample_zero (bitmapWidth_thresholdBitmap_zero br canvasHeight) ph

/-- C8: the factory constructs the display exactly when the container id
resolves in the DOM; otherwise it logs an error and returns null, building
nothing. -/
theorem initLEDBanner_spec (dom : String → Option Unit)
    (br : Nat → Nat → Nat) (cid : String) (opts : Options) :
    (dom cid = none →
      initLEDBanner dom br cid opts = ⟨none, true⟩) ∧
    (dom cid ≠ none →
      initLEDBanner dom br cid opts = ⟨some (construct br opts), false⟩) := by
  constructor
  · intro h
    unfold initLEDBanner
    rw [h]
  · intro h
    unfold initLEDBanner
    cases hd : dom cid with
    | none => exact absurd hd h
    | some u => rfl

/-- Witness for C8 on an empty DOM: the factory reports the error and
returns no display. -/
theorem initLEDBanner_spec_witness :
    initLEDBanner (fun _ => none) (fun _ _ => 0) "banner"
      ⟨none, none, none, none, none, none, none⟩ = ⟨none, true⟩ :=
  (initLEDBanner_spec (fun _ => none) (fun _ _ => 0) "banner"
    ⟨none, none, none, none, none, none, none⟩).1 rfl

theorem jsOrNat_pos (v : Option Nat) (d : Nat) (hd : 0 < d) :
    0 < jsOrNat v d := by
  unfold jsOrNat
  cases v with
  | none => exact hd
  | some n =>
    dsimp only
    split_ifs with h
    · exact hd
    · omega

theorem updateScrollPosition_text (s : BannerState) :
    (updateScrollPosition s).text = s.text := by
  unfold updateScrollPosition; split_ifs <;> rfl

theorem updateScrollPosition_panelWidth (s : BannerState) :
    (updateScrollPosition s).panelWidth = s.panelWidth := by
  unfold updateScrollPosition; split_ifs <;> rfl

theorem updateScrollPosition_panelHeight (s : BannerState) :
    (updateScrollPosition s).panelHeight = s.panelHeight := by
  unfold updateScrollPosition; split_ifs <;> rfl

theorem updateScrollPosition_ledSize (s : BannerState) :
    (updateScrollPosition s).ledSize = s.ledSize := by
  unfold updateScrollPosition; split_ifs <;> rfl

theorem updateScrollPosition_spacing (s : BannerState) :
    (updateScrollPosition s).spacing = s.spacing := by
  unfold updateScrollPosition; split_ifs <;> rfl

theorem updateScrollPosition_offColor (s : BannerState) :
    (updateScrollPosition s).offColor = s.offColor := by
  unfold updateScrollPosition; split_ifs <;> rfl

theorem updateScrollPosition_scrollSpeed (s : BannerState) :
    (updateScrollPosition s).scrollSpeed = s.scrollSpeed := by
  unfold updateScrollPosition; split_ifs <;> rfl

theorem updateScrollPosition_textBitmap (s : BannerState) :
    (updateScrollPosition s).textBitmap = s.textBitmap := by
  unfold updateScrollPosition; split_ifs <;> rfl

theorem length_thresholdBitmap (br : Nat → Nat → Nat) (w h : Nat) :
    (thresholdBitmap br w h).length = h := by
  simp [thresholdBitmap]

theorem bitmapWidth_thresholdBitmap (br : Nat → Nat → Nat) (w h : Nat)
    (hh : h ≠ 0) : bitmapWidth (thresholdBitmap br w h) = w := by
  unfold thresholdBitmap bitmapWidth
  cases h with
  | zero => exact absurd rfl hh
  | succ n =>
    rw [List.range_succ_eq_map]
    simp

theorem createTextBitmap_tall (br : Nat → Nat → Nat) (len ph : Nat)
    (h : ¬ ph < canvasHeight) :
    createTextBitmap br len ph =
      thresholdBitmap br (canvasWidth len) canvasHeight := by
  unfold createTextBitmap downsample
  rw [if_neg (by rw [length_thresholdBitmap]; exact h)]

theorem createTextBitmap_length_pos (br : Nat → Nat → Nat) (len ph : Nat)
    (hph : 0 < ph) : 0 < (createTextBitmap br len ph).length := by
  unfold createTextBitmap downsample
  split_ifs with h
  · simpa using hph
  · rw [length_thresholdBitmap]
    decide

theorem construct_scrollOffset_no_wrap (br : Nat → Nat → Nat) (opts : Options)
    (hnw : (constructInit br opts).scrollSpeed <
      (bitmapWidth (constructInit br opts).textBitmap : ℚ) +
        ((constructInit br opts).panelWidth : ℚ)) :
    (construct br opts).scrollOffset = (constructInit br opts).scrollSpeed := by
  have hlen : ¬ (constructInit br opts).textBitmap.length = 0 := by
    show ¬ (createTextBitmap br
      (jsOrString opts.text "WELCOME TO MY WEBSITE").length
      (jsOrNat opts.panelHeight 10)).length = 0
    exact Nat.pos_iff_ne_zero.mp (createTextBitmap_length_pos br _ _
      (jsOrNat_pos opts.panelHeight 10 (by decide)))
  have hcond : ¬ ((bitmapWidth (constructInit br opts).textBitmap : ℚ) +
      ((constructInit br opts).panelWidth : ℚ) ≤
      (constructInit br opts).scrollOffset + (constructInit br opts).scrollSpeed) := by
    rw [show (constructInit br opts).scrollOffset = (0 : ℚ) from rfl, zero_add]
    exact not_le.mpr hnw
  unfold construct updateScrollPosition
  rw [if_neg hlen, if_neg hcond]
  show (constructInit br opts).scrollOffset + (constructInit br opts).scrollSpeed = _
  rw [show (constructInit br opts).scrollOffset = (0 : ℚ) from rfl, zero_add]

/-- Counterexample to C9 as stated: with options `{panelHeight: 100}` and
every other default, the scroll offset immediately after construction is
the default speed 0.4, not 0 — the constructor's own synchronous
`animate()` call (line 39) has already run one tick. -/
theorem construct_offset_ne_zero :
    (construct (fun _ _ => 0)
      ⟨none, none, some 100, none, none, none, none⟩).scrollOffset ≠ 0 := by
  have hnw : (constructInit (fun _ _ => 0)
      ⟨none, none, some 100, none, none, none, none⟩).scrollSpeed <
      (bitmapWidth (constructInit (fun _ _ => 0)
        ⟨none, none, some 100, none, none, none, none⟩).textBitmap : ℚ) +
        ((constructInit (fun _ _ => 0)
          ⟨none, none, some 100, none, none, none, none⟩).panelWidth : ℚ) := by
    show (2/5 : ℚ) <
      (bitmapWidth (createTextBitmap (fun _ _ => 0) 21 100) : ℚ) + ((80 : ℕ) : ℚ)
    rw [createTextBitmap_tall (fun _ _ => 0) 21 100 (by decide),
      bitmapWidth_thresholdBitmap (fun _ _ => 0) (canvasWidth 21) canvasHeight
        (by decide)]
    norm_num [canvasWidth]
  rw [construct_scrollOffset_no_wrap _ _ hnw]
  show (2/5 : ℚ) ≠ 0
  norm_num

/-- C9 (amended): the constructor's synchronous `animate()` call runs one
tick before returning, so immediately after construction the scroll offset
equals the resolved scrollSpeed (0.4 by default) — not 0 — provided the
first tick does not wrap; hence it is nonzero whenever the resolved speed
is, and differs from the fully-off-screen `-panelWidth` that `setText`
establishes whenever the speed does, so the initial text still starts at
the panel's left edge on the very first frame. -/
theorem construct_first_tick_offset (br : Nat → Nat → Nat) (opts : Options)
    (hnw : (constructInit br opts).scrollSpeed <
      (bitmapWidth (constructInit br opts).textBitmap : ℚ) +
        ((constructInit br opts).panelWidth : ℚ)) :
    (construct br opts).scrollOffset = (constructInit br opts).scrollSpeed ∧
    ((constructInit br opts).scrollSpeed ≠ 0 →
      (construct br opts).scrollOffset ≠ 0) ∧
    ((constructInit br opts).scrollSpeed ≠ -((constructInit br opts).panelWidth : ℚ) →
      (construct br opts).scrollOffset ≠ -((construct br opts).panelWidth : ℚ)) := by
  have h := construct_scrollOffset_no_wrap br opts hnw
  refine ⟨h, ?_, ?_⟩
  · intro h0
    rw [h]
    exact h0
  · intro hne
    rw [h, show (construct br opts).panelWidth = (constructInit br opts).panelWidth
      from updateScrollPosition_panelWidth (constructInit br opts)]
    exact hne

/-- Witness for amended C9 at `{panelHeight: 100}` and defaults otherwise:
the post-construction offset is the default speed, nonzero, and not
`-panelWidth`. -/
theorem construct_first_tick_offset_witness :
    (construct (fun _ _ => 0)
        ⟨none, none, some 100, none, none, none, none⟩).scrollOffset =
      (constructInit (fun _ _ => 0)
        ⟨none, none, some 100, none, none, none, none⟩).scrollSpeed ∧
    (construct (fun _ _ => 0)
        ⟨none, none, some 100, none, none, none, none⟩).scrollOffset ≠ 0 ∧
    (construct (fun _ _ => 0)
        ⟨none, none, some 100, none, none, none, none⟩).scrollOffset ≠
      -((construct (fun _ _ => 0)
        ⟨none, none, some 100, none, none, none, none⟩).panelWidth : ℚ) := by
  have hnw : (constructInit (fun _ _ => 0)
      ⟨none, none, some 100, none, none, none, none⟩).scrollSpeed <
      (bitmapWidth (constructInit (fun _ _ => 0)
        ⟨none, none, some 100, none, none, none, none⟩).textBitmap : ℚ) +
        ((constructInit (fun _ _ => 0)
          ⟨none, none, some 100, none, none, none, none⟩).panelWidth : ℚ) := by
    show (2/5 : ℚ) <
      (bitmapWidth (createTextBitmap (fun _ _ => 0) 21 100) : ℚ) + ((80 : ℕ) : ℚ)
    rw [createTextBitmap_tall (fun _ _ => 0) 21 100 (by decide),
      bitmapWidth_thresholdBitmap (fun _ _ => 0) (canvasWidth 21) canvasHeight
        (by decide)]
    norm_num [canvasWidth]
  exact ⟨(construct_first_tick_offset _ _ hnw).1,
    (construct_first_tick_offset _ _ hnw).2.1 (by
      show (2/5 : ℚ) ≠ 0
      norm_num),
    (construct_first_tick_offset _ _ hnw).2.2 (by
      show (2/5 : ℚ) ≠ -((80 : ℕ) : ℚ)
      norm_num)⟩

/-- C10: every recognized constructor option whose supplied value is falsy
(absent, 0, or the empty string) is replaced by its default — text
"WELCOME TO MY WEBSITE", panelWidth 80, panelHeight 10, ledSize 0.85,
spacing 1.2, offColor 0x100000, scrollSpeed 0.4 — and every truthy value is
kept. -/
theorem construct_defaults (br : Nat → Nat → Nat) (opts : Options) :
    ((opts.text = none ∨ opts.text = some "") →
      (construct br opts).text = "WELCOME TO MY WEBSITE") ∧
    (∀ v, v ≠ "" → opts.text = some v → (construct br opts).text = v) ∧
    ((opts.panelWidth = none ∨ opts.panelWidth = some 0) →
      (construct br opts).panelWidth = 80) ∧
    (∀ v, v ≠ 0 → opts.panelWidth = some v →
      (construct br opts).panelWidth = v) ∧
    ((opts.panelHeight = none ∨ opts.panelHeight = some 0) →
      (construct br opts).panelHeight = 10) ∧
    (∀ v, v ≠ 0 → opts.panelHeight = some v →
      (construct br opts).panelHeight = v) ∧
    ((opts.ledSize = none ∨ opts.ledSize = some 0) →
      (construct br opts).ledSize = 17 / 20) ∧
    (∀ v, v ≠ (0 : ℚ) → opts.ledSize = some v →
      (construct br opts).ledSize = v) ∧
    ((opts.spacing = none ∨ opts.spacing = some 0) →
      (construct br opts).spacing = 6 / 5) ∧
    (∀ v, v ≠ (0 : ℚ) → opts.spacing = some v →
      (construct br opts).spacing = v) ∧
    ((opts.offColor = none ∨ opts.offColor = some 0) →
      (construct br opts).offColor = 0x100000) ∧
    (∀ v, v ≠ 0 → opts.offColor = some v →
      (construct br opts).offColor = v) ∧
    ((opts.scrollSpeed = none ∨ opts.scrollSpeed = some 0) →
      (construct br opts).scrollSpeed = 2 / 5) ∧
    (∀ v, v ≠ (0 : ℚ) → opts.scrollSpeed = some v →
      (construct br opts).scrollSpeed = v) := by
  refine ⟨?_, ?_, ?_, ?_, ?_, ?_, ?_, ?_, ?_, ?_, ?_, ?_, ?_, ?_⟩ <;>
  first
    | (rintro (h | h) <;>
        simp [construct, constructInit, updateScrollPosition_text,
          updateScrollPosition_panelWidth, updateScrollPosition_panelHeight,
          updateScrollPosition_ledSize, updateScrollPosition_spacing,
          updateScrollPosition_offColor, updateScrollPosition_scrollSpeed,
          jsOrString, jsOrNat, jsOrRat, h])
    | (intro v hv he
       simp [construct, constructInit, updateScrollPosition_text,
         updateScrollPosition_panelWidth, updateScrollPosition_panelHeight,
         updateScrollPosition_ledSize, updateScrollPosition_spacing,
         updateScrollPosition_offColor, updateScrollPosition_scrollSpeed,
         jsOrString, jsOrNat, jsOrRat, he, hv])

/-- Witness for C10: supplying `panelWidth = 0` and `scrollSpeed = 0` yields
the defaults 80 and 0.4, never the supplied zeros. -/
theorem construct_defaults_witness :
    (construct (fun _ _ => 0)
      ⟨none, some 0, none, none, none, none, some 0⟩).panelWidth = 80 ∧
    (construct (fun _ _ => 0)
      ⟨none, some 0, none, none, none, none, some 0⟩).scrollSpeed = 2 / 5 :=
  ⟨(construct_defaults (fun _ _ => 0)
      ⟨none, some 0, none, none, none, none, some 0⟩).2.2.1 (Or.inr rfl),
   (construct_defaults (fun _ _ => 0)
      ⟨none, some 0, none, none, none, none,
        some 0⟩).2.2.2.2.2.2.2.2.2.2.2.2.1 (Or.inr rfl)⟩

end LEDBanner
